import Mathlib

/-!
Verification of `src/utils/map_display.py` (travel-planner repository).

The module has two components:
* a map renderer `create_itinerary_map` building a folium map value out of a
  list of place dictionaries (markers, day-coloured dashed polylines, legend,
  centre computation, fallback map), and
* a place extractor `extract_places_from_plan` / `_extract_place_info`
  walking an itinerary and querying an external places client.

The embedding below models Python dictionaries/objects as structures with
`Option` fields (a missing key is `none`), floats as rationals, raised
exceptions of the external client as `Except` results, and the produced
folium objects as plain data (markers, polylines, legend entries) carrying
exactly the data the source pushes into them.  HTML wrapper markup is
abstracted away: a popup or legend entry is modelled by the data the source
interpolates into its HTML template, with the same inclusion conditions and
the same string computations (truncation, labels).
-/

namespace MapDisplay

/-- Python truthiness of an optional float field (`p.get('latitude')` used in
a boolean context): a missing key is falsy, and the float `0.0` is falsy. -/
def truthyCoord : Option ℚ → Bool
  | none => false
  | some x => x != 0

/-- Python truthiness of an optional string (`activity.location`,
`photo_url`, `place_id`, `time_of_day` in boolean contexts): missing or
empty strings are falsy. -/
def truthyStr : Option String → Bool
  | none => false
  | some s => s != ""

/-- A place dictionary as consumed by the renderer.  Every key may be
absent, mirroring `place.get(...)` accesses in the source. -/
structure Place where
  name : Option String
  description : Option String
  latitude : Option ℚ
  longitude : Option ℚ
  photo_url : Option String
  day : Option Int
  time : Option String
deriving Repr, DecidableEq, Inhabited

/-- Access `place['latitude']` after the validity filter (guaranteed present). -/
def latOf (p : Place) : ℚ := p.latitude.getD 0

/-- Access `place['longitude']` after the validity filter (guaranteed present). -/
def lngOf (p : Place) : ℚ := p.longitude.getD 0

/-- Access `place.get('day', 1)`. -/
def dayOf (p : Place) : Int := p.day.getD 1

/-- The filter at the top of `create_itinerary_map`:
`[p for p in places if p.get('latitude') and p.get('longitude')]`. -/
def validPlaces (places : List Place) : List Place :=
  places.filter fun p => truthyCoord p.latitude && truthyCoord p.longitude

/-- The fixed 7-colour day palette `day_colors`. -/
def day_colors : List String :=
  ["#e74c3c", "#3498db", "#2ecc71", "#9b59b6", "#f39c12", "#1abc9c", "#e91e63"]

/-- Lookup `day_colors[(day - 1) % len(day_colors)]` (Python `%` on a positive
modulus is `Int.emod`, always non-negative). -/
def dayColor (day : Int) : String :=
  day_colors.getD ((day - 1).emod 7).toNat ""

/-- The `time_icons` lookup table. -/
def time_icons : List (String × String) :=
  [("morning", "🌅"), ("afternoon", "☀️"), ("evening", "🌙")]

/-- Python `str.capitalize()`: first character upper-cased, rest lowered. -/
def pyCapitalize (s : String) : String := s.toLower.capitalize

/-- The data interpolated by `_create_popup_html` into its HTML template:
the optional photo block, the day badge, the optional time line, the name
and the optional (possibly truncated) description paragraph. -/
structure PopupContent where
  photo_url : Option String
  day : Int
  time_html : Option String
  name : String
  description_text : Option String
deriving Repr, DecidableEq

/-- Embedding of `_create_popup_html`: builds the popup payload.  The photo block is
emitted only for a truthy `photo_url`; the time line only for a truthy
`time_of_day`; the description paragraph only for a non-empty description,
truncated to 150 characters plus `"..."` when longer than 150. -/
def create_popup_html (name description : String) (photo_url : Option String)
    (day : Int) (time_of_day time_icon : String) : PopupContent :=
  { photo_url := if truthyStr photo_url then photo_url else none
    day := day
    time_html :=
      if time_of_day != "" then some (time_icon ++ " " ++ pyCapitalize time_of_day)
      else none
    name := name
    description_text :=
      if description != "" then
        some (if description.length > 150 then
                String.mk (description.data.take 150) ++ "..."
              else description)
      else none }

/-- A marker added by the loop over `valid_places`: its coordinate, tooltip
string, day colour, the 1-based number shown in the `DivIcon`, and the popup
payload. -/
structure Marker where
  location : ℚ × ℚ
  tooltip : String
  color : String
  label : Nat
  popup : PopupContent
deriving Repr, DecidableEq

/-- Marker construction for index `i` (0-based) and place `p`, as in the
body of the `for i, place in enumerate(valid_places)` loop. -/
def mkMarker (i : Nat) (p : Place) : Marker :=
  let name := p.name.getD s!"Stop {i + 1}"
  let description := p.description.getD ""
  let day := dayOf p
  let time_of_day := p.time.getD ""
  let time_icon :=
    if time_of_day != "" then (time_icons.lookup time_of_day.toLower).getD "📍"
    else "📍"
  { location := (latOf p, lngOf p)
    tooltip := s!"Day {day}: {name}"
    color := dayColor day
    label := i + 1
    popup := create_popup_html name description p.photo_url day time_of_day time_icon }

/-- A `folium.PolyLine` as constructed by the day-grouping loop. -/
structure PolyLine where
  points : List (ℚ × ℚ)
  weight : Nat
  color : String
  opacity : ℚ
  dash_array : String
deriving Repr, DecidableEq

/-- The polyline constructed for a finished day group: dashed (`'10'`),
weight 3, opacity 0.7, coloured by the group's day. -/
def mkLine (pts : List (ℚ × ℚ)) (day : Int) : PolyLine :=
  { points := pts, weight := 3, color := dayColor day, opacity := 7/10
    dash_array := "10" }

/-- The loop of the "Draw lines connecting places in order" block: walks the
remaining places carrying `current_day` and the accumulated `day_coords`;
on a day change with non-empty `day_coords` it emits the finished polyline
and restarts `day_coords` from its last point; after the loop it emits the
pending polyline if non-empty. -/
def linesGo : List Place → Int → List (ℚ × ℚ) → List PolyLine
  | [], current_day, day_coords =>
      if day_coords = [] then [] else [mkLine day_coords current_day]
  | p :: ps, current_day, day_coords =>
      let day := dayOf p
      let coord := (latOf p, lngOf p)
      if day ≠ current_day ∧ day_coords ≠ [] then
        mkLine day_coords current_day ::
          linesGo ps day (day_coords.getLast?.toList ++ [coord])
      else
        linesGo ps current_day (day_coords ++ [coord])

/-- Access `valid_places[0].get('day', 1)`, the initial `current_day`. -/
def firstDay : List Place → Int
  | [] => 1
  | p :: _ => dayOf p

/-- A legend entry: colour swatch and its `"Day {day}"` label, as
interpolated by `_create_legend_html` into one legend item. -/
structure LegendEntry where
  color : String
  label : String
deriving Repr, DecidableEq

/-- Computation `sorted(set(p.get('day', 1) for p in places))` in `_create_legend_html`. -/
def legendDays (places : List Place) : List Int :=
  List.insertionSort (fun a b => a ≤ b) (places.map dayOf).dedup

/-- Embedding of `_create_legend_html`: one legend entry per distinct day, in ascending
order, coloured by the day's palette colour. -/
def create_legend_html (places : List Place) : List LegendEntry :=
  (legendDays places).map fun d => { color := dayColor d, label := s!"Day {d}" }

/-- The folium map value produced by `create_itinerary_map`: its centre
`location`, `zoom_start`, tiles, the markers and polylines added to it, the
legend element (absent on the early-return paths) and the `fit_bounds`
coordinates (absent unless more than one marker exists). -/
structure FoliumMap where
  location : ℚ × ℚ
  zoom_start : Int
  tiles : Option String
  markers : List Marker
  polylines : List PolyLine
  legend : Option (List LegendEntry)
  fit_bounds : Option (List (ℚ × ℚ))
deriving Repr, DecidableEq

/-- The fallback map `folium.Map(location=[48.8566, 2.3522],
zoom_start=zoom_start)` returned for empty or all-invalid input: centred on
Paris, no markers, no lines, no legend. -/
def defaultMap (zoom_start : Int) : FoliumMap :=
  { location := (488566/10000, 23522/10000)
    zoom_start := zoom_start
    tiles := none
    markers := []
    polylines := []
    legend := none
    fit_bounds := none }

/-- Embedding of `create_itinerary_map(places, center, zoom_start)`. -/
def create_itinerary_map (places : List Place) (center : Option (ℚ × ℚ))
    (zoom_start : Int) : FoliumMap :=
  if places.isEmpty then defaultMap zoom_start else
  let valid := validPlaces places
  if valid.isEmpty then defaultMap zoom_start else
  let c :=
    match center with
    | some c0 => c0
    | none =>
        ((valid.map latOf).sum / (valid.length : ℚ),
         (valid.map lngOf).sum / (valid.length : ℚ))
  let markers := valid.enum.map fun ip => mkMarker ip.1 ip.2
  let coordinates_for_line := valid.map fun p => (latOf p, lngOf p)
  let lines :=
    if 1 < coordinates_for_line.length then linesGo valid (firstDay valid) []
    else []
  { location := c
    zoom_start := zoom_start
    tiles := some "cartodbpositron"
    markers := markers
    polylines := lines
    legend := some (create_legend_html valid)
    fit_bounds :=
      if 1 < coordinates_for_line.length then some coordinates_for_line
      else none }

/-- The `location` sub-dictionary of a search result
(`best_match.get('location', {})` then `.get('lat')` / `.get('lng')`). -/
structure ResultLocation where
  lat : Option ℚ
  lng : Option ℚ
deriving Repr, DecidableEq

/-- One search result dictionary returned by `places_client.search_places`. -/
structure SearchResult where
  location : Option ResultLocation
  place_id : Option String
deriving Repr, DecidableEq

/-- The external places client.  A raised exception is modelled as an
`Except.error` result; both calls may fail. -/
structure PlacesClient where
  search_places : String → Except String (List SearchResult)
  get_place_photo_url : String → Except String (Option String)

/-- An activity of an itinerary day (`activity.name`, `.description`,
`.location`). -/
structure Activity where
  name : String
  description : Option String
  location : Option String
deriving Repr, DecidableEq

/-- One itinerary day with its three time-slot activity lists. -/
structure DayPlan where
  day_number : Int
  morning : List Activity
  afternoon : List Activity
  evening : List Activity
deriving Repr, DecidableEq

/-- A travel plan: just the itinerary, the only field this module reads. -/
structure TravelPlan where
  itinerary : List DayPlan
deriving Repr, DecidableEq

/-- The query string `f"{activity.name} {activity.location}"`. -/
def queryOf (a : Activity) : String := a.name ++ " " ++ a.location.getD ""

/-- Embedding of `_extract_place_info(activity, day, time_of_day, places_client)`.

The base dictionary has `None` coordinates.  When a client is supplied and
`activity.location` is truthy, the try-block runs: a search failure leaves
the base unchanged (caught exception); a non-empty result list assigns
`location.get('lat')` / `location.get('lng')` to the place, and then — only
for a truthy `place_id` — resolves the photo URL, where a failure of that
second call is caught *after* the coordinates were already assigned, so the
coordinates survive.  Finally the place is returned only if both
coordinates are non-`None`. -/
def extract_place_info (activity : Activity) (day : Int) (time_of_day : String)
    (places_client : Option PlacesClient) : Option Place :=
  let base : Place :=
    { name := some activity.name
      description := some (activity.description.getD "")
      day := some day
      time := some time_of_day
      latitude := none
      longitude := none
      photo_url := none }
  let place :=
    match places_client with
    | none => base
    | some client =>
      if truthyStr activity.location then
        match client.search_places (queryOf activity) with
        | Except.error _ => base
        | Except.ok results =>
          match results with
          | [] => base
          | best_match :: _ =>
            let loc := best_match.location.getD { lat := none, lng := none }
            let p1 := { base with latitude := loc.lat, longitude := loc.lng }
            if truthyStr best_match.place_id then
              match client.get_place_photo_url (best_match.place_id.getD "") with
              | Except.error _ => p1
              | Except.ok photo_url =>
                if truthyStr photo_url then { p1 with photo_url := photo_url }
                else p1
            else p1
      else base
  if place.latitude.isNone ∨ place.longitude.isNone then none else some place

/-- Embedding of `extract_places_from_plan(plan, places_client)`: a `None` plan or empty
itinerary yields `[]`; otherwise each day's morning, afternoon and evening
activities are processed in order, appending only the activities for which
`_extract_place_info` returned a place. -/
def extract_places_from_plan (plan : Option TravelPlan)
    (places_client : Option PlacesClient) : List Place :=
  match plan with
  | none => []
  | some pl =>
    if pl.itinerary.isEmpty then [] else
    pl.itinerary.flatMap fun day =>
      (day.morning.filterMap fun a =>
        extract_place_info a day.day_number "morning" places_client) ++
      (day.afternoon.filterMap fun a =>
        extract_place_info a day.day_number "afternoon" places_client) ++
      (day.evening.filterMap fun a =>
        extract_place_info a day.day_number "evening" places_client)

/-! Spec-side description of the connecting lines: the filtered sequence,
annotated with day and coordinate, is partitioned into maximal runs of
consecutive equal days; each run becomes one polyline, and every run after
the first is seeded with the last coordinate of the previous run. -/

/-- The day/coordinate annotation of a place used by the line-drawing loop. -/
def placeKey (p : Place) : Int × (ℚ × ℚ) := (dayOf p, (latOf p, lngOf p))

/-- Modelled from the spec: the maximal runs of consecutive entries sharing
the same day, in order, each run keeping its day and its coordinate list. -/
def dayRuns : List (Int × (ℚ × ℚ)) → List (Int × List (ℚ × ℚ))
  | [] => []
  | (d, c) :: rest =>
    match dayRuns rest with
    | [] => [(d, [c])]
    | (d2, cs) :: more =>
      if d = d2 then (d, c :: cs) :: more else (d, [c]) :: (d2, cs) :: more

/-- Modelled from the spec: render the runs as polylines, seeding every run
after the first with the last coordinate of the previous run (the carried
coordinate) before the run's own points. -/
def specLines : Option (ℚ × ℚ) → List (Int × List (ℚ × ℚ)) → List PolyLine
  | _, [] => []
  | carry, (d, cs) :: rest =>
      mkLine (carry.toList ++ cs) d :: specLines cs.getLast? rest

/-- Helper for relating the loop to the runs: merge a pending partial run
(day `d`, stored coordinates `coords`) with the runs of the remaining list. -/
def mergeHead (d : Int) (coords : List (ℚ × ℚ)) :
    List (Int × List (ℚ × ℚ)) → List (Int × List (ℚ × ℚ))
  | [] => [(d, coords)]
  | (d2, cs) :: more =>
      if d = d2 then (d, coords ++ cs) :: more else (d, coords) :: (d2, cs) :: more

/-! Concrete inputs used by counterexamples and witnesses. -/

/-- A record whose coordinates are both present but whose latitude is `0`:
present-but-falsy under the renderer's truthiness filter. -/
def zeroLatPlace : Place :=
  { name := some "Null Island offset", description := none
    latitude := some 0, longitude := some 1
    photo_url := none, day := some 1, time := some "morning" }

/-- A simple fully-valid place on a given day at a given coordinate. -/
def simplePlace (day : Int) (la ln : ℚ) : Place :=
  { name := some "Stop", description := none
    latitude := some la, longitude := some ln
    photo_url := none, day := some day, time := none }

/-- Four valid places whose day sequence is `[1, 1, 2, 1]`. -/
def ex1121 : List Place :=
  [simplePlace 1 1 1, simplePlace 1 2 2, simplePlace 2 3 3, simplePlace 1 4 4]

/-- A 151-character description, one character past the truncation limit. -/
def longDesc : String := String.mk (List.replicate 151 'a')

/-- An activity with a truthy location hint. -/
def actEx : Activity :=
  { name := "Louvre", description := none, location := some "Paris" }

/-- An activity without a location hint. -/
def actNoLoc : Activity := { name := "Walk", description := none, location := none }

/-- A client whose search succeeds (coordinates and a place id) but whose
photo-resolution call raises. -/
def clientPhotoFail : PlacesClient :=
  { search_places := fun _ =>
      Except.ok [{ location := some { lat := some 1, lng := some 2 }
                   place_id := some "pid" }]
    get_place_photo_url := fun _ => Except.error "network" }

/-- A client that raises on every call. -/
def clientAllFail : PlacesClient :=
  { search_places := fun _ => Except.error "network"
    get_place_photo_url := fun _ => Except.error "network" }

/-- A client whose best match has latitude `0`: present but falsy for the
renderer. -/
def clientZeroLat : PlacesClient :=
  { search_places := fun _ =>
      Except.ok [{ location := some { lat := some 0, lng := some 1 }
                   place_id := none }]
    get_place_photo_url := fun _ => Except.ok none }

/-- A one-day, one-activity travel plan whose activity has a location. -/
def planOne : TravelPlan :=
  { itinerary := [{ day_number := 1, morning := [actEx], afternoon := []
                    evening := [] }] }

/-- A one-day, one-activity travel plan whose activity has no location. -/
def planNoLoc : TravelPlan :=
  { itinerary := [{ day_number := 1, morning := [actNoLoc], afternoon := []
                    evening := [] }] }

/-- A single fully-valid place at latitude 10, longitude 20. -/
def exC6 : List Place := [simplePlace 1 10 20]

/-! Helper lemmas about the renderer's two early-return paths and its main
path. -/

lemma isEmpty_false_of_valid_ne_nil {places : List Place}
    (h : validPlaces places ≠ []) : places.isEmpty = false := by
  cases places with
  | nil => exact absurd rfl h
  | cons a l => rfl

lemma create_itinerary_map_of_invalid {places : List Place}
    {center : Option (ℚ × ℚ)} {zoom : Int} (h : validPlaces places = []) :
    create_itinerary_map places center zoom = defaultMap zoom := by
  unfold create_itinerary_map
  by_cases hp : places.isEmpty
  · simp [hp]
  · simp [hp, h]

lemma create_itinerary_map_of_valid {places : List Place}
    {center : Option (ℚ × ℚ)} {zoom : Int} (h : validPlaces places ≠ []) :
    create_itinerary_map places center zoom =
      { location :=
          match center with
          | some c0 => c0
          | none =>
              (((validPlaces places).map latOf).sum /
                 ((validPlaces places).length : ℚ),
               ((validPlaces places).map lngOf).sum /
                 ((validPlaces places).length : ℚ))
        zoom_start := zoom
        tiles := some "cartodbpositron"
        markers := (validPlaces places).enum.map fun ip => mkMarker ip.1 ip.2
        polylines :=
          if 1 < ((validPlaces places).map fun p => (latOf p, lngOf p)).length
          then linesGo (validPlaces places) (firstDay (validPlaces places)) []
          else []
        legend := some (create_legend_html (validPlaces places))
        fit_bounds :=
          if 1 < ((validPlaces places).map fun p => (latOf p, lngOf p)).length
          then some ((validPlaces places).map fun p => (latOf p, lngOf p))
          else none } := by
  unfold create_itinerary_map
  rw [isEmpty_false_of_valid_ne_nil h]
  simp only [Bool.false_eq_true, if_false, List.isEmpty_iff, h]

/-- C1, as stated, is false: the renderer's filter keeps a record only when
both coordinates are *truthy*, not merely present.  At the concrete input
`[zeroLatPlace]` both coordinates are present (`some 0`, `some 1`), yet the
rendered map has 0 markers while the count of records with both coordinates
present is 1, and the record does not survive the filter step. -/
theorem c1_presence_count_counterexample :
    ¬ ((create_itinerary_map [zeroLatPlace] none 12).markers.length
        = [zeroLatPlace].countP fun p => p.latitude.isSome && p.longitude.isSome)
    ∧ zeroLatPlace.latitude.isSome = true
    ∧ zeroLatPlace.longitude.isSome = true
    ∧ zeroLatPlace ∉ validPlaces [zeroLatPlace] := by
  refine ⟨?_, rfl, rfl, ?_⟩ <;> decide

/-- C1 (amended): for every input list, the number of markers on the
rendered map equals the number of input records whose latitude and
longitude are both present *and non-zero* (Python truthiness), and every
record with both coordinates present and non-zero survives the renderer's
filter step. -/
theorem c1_marker_count_matches_truthy_filter (places : List Place)
    (center : Option (ℚ × ℚ)) (zoom : Int) :
    (create_itinerary_map places center zoom).markers.length
      = places.countP (fun p => truthyCoord p.latitude && truthyCoord p.longitude)
    ∧ ∀ p ∈ places, (truthyCoord p.latitude && truthyCoord p.longitude) = true →
        p ∈ validPlaces places := by
  have hcount : places.countP
      (fun p => truthyCoord p.latitude && truthyCoord p.longitude)
      = (validPlaces places).length := by
    rw [validPlaces, List.countP_eq_length_filter]
  constructor
  · by_cases h : validPlaces places = []
    · rw [create_itinerary_map_of_invalid h, hcount, h]
      rfl
    · rw [create_itinerary_map_of_valid h, hcount]
      simp
  · intro p hp ht
    exact List.mem_filter.mpr ⟨hp, ht⟩

/-- Witness for the amended C1: a concrete record with truthy coordinates
is counted and survives the filter. -/
theorem c1_marker_count_witness :
    simplePlace 1 1 1 ∈ [simplePlace 1 1 1]
    ∧ (truthyCoord (simplePlace 1 1 1).latitude
        && truthyCoord (simplePlace 1 1 1).longitude) = true
    ∧ simplePlace 1 1 1 ∈ validPlaces [simplePlace 1 1 1] := by
  refine ⟨by decide, by decide, ?_⟩
  exact (c1_marker_count_matches_truthy_filter [simplePlace 1 1 1] none 12).2
    (simplePlace 1 1 1) (by decide) (by decide)

/-- C4: for every input that is empty or has no record passing the
coordinate filter, rendering returns (it is a total function) the fallback
map: centred on `(48.8566, 2.3522)`, with exactly the requested zoom and
nothing else on it. -/
theorem c4_fallback_map (places : List Place) (center : Option (ℚ × ℚ))
    (zoom : Int) (h : validPlaces places = []) :
    create_itinerary_map places center zoom = defaultMap zoom
    ∧ (defaultMap zoom).location = (488566/10000, 23522/10000)
    ∧ (defaultMap zoom).zoom_start = zoom := by
  exact ⟨create_itinerary_map_of_invalid h, rfl, rfl⟩

/-- Witness for C4 at a concrete coordinate-less input and zoom 7. -/
theorem c4_fallback_map_witness :
    validPlaces [zeroLatPlace] = []
    ∧ create_itinerary_map [zeroLatPlace] (some (1, 2)) 7 = defaultMap 7 := by
  refine ⟨by decide, ?_⟩
  exact (c4_fallback_map [zeroLatPlace] (some (1, 2)) 7 (by decide)).1

/-- C6: for every non-empty filtered sequence, a supplied centre is used
verbatim as the map's location (the averaging expression does not occur in
that branch), and with no centre supplied, the location is the pair of
independent arithmetic means of the filtered latitudes and longitudes. -/
theorem c6_center_supplied_or_averaged (places : List Place) (zoom : Int)
    (h : validPlaces places ≠ []) :
    (∀ c : ℚ × ℚ, (create_itinerary_map places (some c) zoom).location = c)
    ∧ (create_itinerary_map places none zoom).location =
        (((validPlaces places).map latOf).sum / ((validPlaces places).length : ℚ),
         ((validPlaces places).map lngOf).sum / ((validPlaces places).length : ℚ)) := by
  constructor
  · intro c
    rw [create_itinerary_map_of_valid h]
  · rw [create_itinerary_map_of_valid h]

/-- Witness for C6: with one place at (10, 20), a supplied centre (5, 6) is
used verbatim. -/
theorem c6_center_witness :
    validPlaces exC6 ≠ []
    ∧ (create_itinerary_map exC6 (some (5, 6)) 12).location = (5, 6) := by
  refine ⟨by decide, ?_⟩
  exact (c6_center_supplied_or_averaged exC6 12 (by decide)).1 (5, 6)

/-- C8: a description longer than 150 characters contributes its first 150
characters followed by the ellipsis marker `"..."` to the popup payload; a
description of 150 characters or fewer is carried verbatim (an empty
description contributes no paragraph, i.e. the empty text). -/
theorem c8_description_truncation (name d : String) (photo : Option String)
    (day : Int) (tod icon : String) :
    (150 < d.length →
        (create_popup_html name d photo day tod icon).description_text
          = some (String.mk (d.data.take 150) ++ "...")
        ∧ (String.mk (d.data.take 150)).length = 150)
    ∧ (d.length ≤ 150 →
        ((create_popup_html name d photo day tod icon).description_text).getD ""
          = d) := by
  constructor
  · intro hlen
    have hne : (d != "") = true := by
      simp only [bne_iff_ne, ne_eq]
      intro he
      rw [he] at hlen
      simp [String.length] at hlen
    have hdata : 150 < d.data.length := hlen
    constructor
    · simp only [create_popup_html, hne, if_true]
      rw [if_pos hlen]
    · show (String.mk (d.data.take 150)).length = 150
      simp only [String.length, List.length_take]
      omega
  · intro hlen
    by_cases hd : d = ""
    · subst hd
      rfl
    · have hne : (d != "") = true := by simp [bne_iff_ne, hd]
      simp only [create_popup_html, hne, if_true]
      rw [if_neg (by omega : ¬ 150 < d.length)]
      rfl

/-- Witness for C8: a 151-character description is truncated to its first
150 characters plus the ellipsis. -/
theorem c8_description_truncation_witness :
    150 < longDesc.length
    ∧ (create_popup_html "X" longDesc none 1 "" "📍").description_text
        = some (String.mk (longDesc.data.take 150) ++ "...") := by
  have hl : longDesc.length = 151 := by
    simp [longDesc, String.length]
  refine ⟨by omega, ?_⟩
  exact ((c8_description_truncation "X" longDesc none 1 "" "📍").1 (by omega)).1

/-! Helper lemmas about the extractor. -/

lemma extract_place_info_of_search_error {a : Activity} {d : Int} {t : String}
    {c : PlacesClient} {e : String}
    (hs : c.search_places (queryOf a) = Except.error e) :
    extract_place_info a d t (some c) = none := by
  unfold extract_place_info
  by_cases hloc : truthyStr a.location
  · simp [hloc, hs]
  · simp [hloc]

lemma extract_place_info_none_client {a : Activity} {d : Int} {t : String} :
    extract_place_info a d t none = none := by
  unfold extract_place_info
  simp

lemma extract_place_info_of_falsy_location {a : Activity} {d : Int} {t : String}
    {c : Option PlacesClient} (h : truthyStr a.location = false) :
    extract_place_info a d t c = none := by
  unfold extract_place_info
  cases c with
  | none => simp
  | some client => simp [h]

lemma not_mem_validPlaces_of_zero {places : List Place} {p : Place}
    (h : p.latitude = some 0 ∨ p.longitude = some 0) :
    p ∉ validPlaces places := by
  intro hmem
  have h2 := (List.mem_filter.mp hmem).2
  rcases h with h | h <;> rw [h] at h2 <;> simp [truthyCoord] at h2

/-- C2, as stated, is false: a failure of the photo-resolution call is
caught *after* the coordinates from the successful search were already
assigned, so the activity is not excluded.  With the concrete client
`clientPhotoFail` (search succeeds, photo call raises) the activity is kept
in the output, with coordinates and no photo URL. -/
theorem c2_photo_failure_counterexample :
    extract_place_info actEx 1 "morning" (some clientPhotoFail) ≠ none
    ∧ extract_place_info actEx 1 "morning" (some clientPhotoFail)
        = some { name := some "Louvre", description := some ""
                 latitude := some 1, longitude := some 2
                 photo_url := none, day := some 1, time := some "morning" } := by
  refine ⟨?_, ?_⟩ <;> decide

/-- C2 (amended): failures of the lookup collaborator are caught and
extraction continues, but the two calls differ: a failure of the search
call leaves the coordinates unresolved, so the activity is excluded; a
failure of the photo-resolution call is caught after the search's
coordinates were already assigned, so the activity is kept — with those
coordinates and without a photo URL. -/
theorem c2_lookup_failure_behavior :
    (∀ (a : Activity) (d : Int) (t : String) (c : PlacesClient) (e : String),
        c.search_places (queryOf a) = Except.error e →
        extract_place_info a d t (some c) = none)
    ∧ (∀ (a : Activity) (d : Int) (t : String) (c : PlacesClient)
         (r : SearchResult) (rs : List SearchResult) (loc : ResultLocation)
         (la ln : ℚ) (pid e : String),
        truthyStr a.location = true →
        c.search_places (queryOf a) = Except.ok (r :: rs) →
        r.location = some loc → loc.lat = some la → loc.lng = some ln →
        r.place_id = some pid → pid ≠ "" →
        c.get_place_photo_url pid = Except.error e →
        extract_place_info a d t (some c)
          = some { name := some a.name
                   description := some (a.description.getD "")
                   latitude := some la, longitude := some ln
                   photo_url := none, day := some d, time := some t }) := by
  constructor
  · intro a d t c e hs
    exact extract_place_info_of_search_error hs
  · intro a d t c r rs loc la ln pid e hloc hs hrl hla hln hpid hpne hpu
    have hts : truthyStr (some pid) = true := by simp [truthyStr, hpne]
    unfold extract_place_info
    simp [hloc, hs, hrl, hla, hln, hpid, hts, hpu]

/-- Witness for the amended C2 at the concrete failing-photo client. -/
theorem c2_lookup_failure_witness :
    truthyStr actEx.location = true
    ∧ clientPhotoFail.get_place_photo_url "pid" = Except.error "network"
    ∧ extract_place_info actEx 1 "morning" (some clientPhotoFail)
        = some { name := some actEx.name
                 description := some (actEx.description.getD "")
                 latitude := some 1, longitude := some 2
                 photo_url := none, day := some 1, time := some "morning" } := by
  refine ⟨by decide, rfl, ?_⟩
  exact c2_lookup_failure_behavior.2 actEx 1 "morning" clientPhotoFail
    { location := some { lat := some 1, lng := some 2 }, place_id := some "pid" }
    [] { lat := some 1, lng := some 2 } 1 2 "pid" "network"
    (by decide) rfl rfl rfl rfl rfl (by decide) rfl

/-- C7: a lookup collaborator that raises on every call (both the search
call and the photo call) yields an extraction result of zero records for
every plan; extraction is a total function, so no error reaches the
caller. -/
theorem c7_all_failing_client (plan : Option TravelPlan) (c : PlacesClient)
    (hs : ∀ q, ∃ e, c.search_places q = Except.error e)
    (_hp : ∀ pid, ∃ e, c.get_place_photo_url pid = Except.error e) :
    extract_places_from_plan plan (some c) = [] := by
  have hext : ∀ (a : Activity) (d : Int) (t : String),
      extract_place_info a d t (some c) = none := by
    intro a d t
    obtain ⟨e, he⟩ := hs (queryOf a)
    exact extract_place_info_of_search_error he
  cases plan with
  | none => rfl
  | some pl =>
    unfold extract_places_from_plan
    by_cases hi : pl.itinerary.isEmpty
    · simp [hi]
    · simp only [hi, Bool.false_eq_true, if_false]
      refine List.flatMap_eq_nil_iff.mpr ?_
      intro day hday
      simp [List.filterMap_eq_nil_iff, hext]

/-- Witness for C7: a concrete one-activity plan and an always-raising
client produce the empty extraction result. -/
theorem c7_all_failing_client_witness :
    extract_places_from_plan (some planOne) (some clientAllFail) = [] :=
  c7_all_failing_client (some planOne) clientAllFail
    (fun _ => ⟨"network", rfl⟩) (fun _ => ⟨"network", rfl⟩)

/-- C10: with no lookup client, or with every activity lacking a truthy
location hint, no candidate obtains coordinates and extraction returns the
empty sequence, however many activities the itinerary has. -/
theorem c10_no_client_or_no_location :
    (∀ plan, extract_places_from_plan plan none = [])
    ∧ (∀ (pl : TravelPlan) (c : Option PlacesClient),
        (∀ day ∈ pl.itinerary,
          ∀ a ∈ day.morning ++ day.afternoon ++ day.evening,
            truthyStr a.location = false) →
        extract_places_from_plan (some pl) c = []) := by
  constructor
  · intro plan
    cases plan with
    | none => rfl
    | some pl =>
      unfold extract_places_from_plan
      by_cases hi : pl.itinerary.isEmpty
      · simp [hi]
      · simp only [hi, Bool.false_eq_true, if_false]
        refine List.flatMap_eq_nil_iff.mpr ?_
        intro day hday
        simp [List.filterMap_eq_nil_iff, extract_place_info_none_client]
  · intro pl c hloc
    unfold extract_places_from_plan
    by_cases hi : pl.itinerary.isEmpty
    · simp [hi]
    · simp only [hi, Bool.false_eq_true, if_false]
      refine List.flatMap_eq_nil_iff.mpr ?_
      intro day hday
      have hm : ∀ a ∈ day.morning, truthyStr a.location = false := fun a ha =>
        hloc day hday a (List.mem_append.mpr (Or.inl (List.mem_append.mpr (Or.inl ha))))
      have ha : ∀ a ∈ day.afternoon, truthyStr a.location = false := fun a ha =>
        hloc day hday a (List.mem_append.mpr (Or.inl (List.mem_append.mpr (Or.inr ha))))
      have he : ∀ a ∈ day.evening, truthyStr a.location = false := fun a ha =>
        hloc day hday a (List.mem_append.mpr (Or.inr ha))
      simp only [List.append_eq_nil, List.filterMap_eq_nil_iff]
      refine ⟨⟨fun a haa => ?_, fun a haa => ?_⟩, fun a haa => ?_⟩
      · exact extract_place_info_of_falsy_location (hm a haa)
      · exact extract_place_info_of_falsy_location (ha a haa)
      · exact extract_place_info_of_falsy_location (he a haa)

/-- Witness for C10 at a concrete plan whose one activity has no location,
with a client supplied. -/
theorem c10_no_location_witness :
    extract_places_from_plan (some planNoLoc) (some clientAllFail) = [] :=
  c10_no_client_or_no_location.2 planNoLoc (some clientAllFail) (by decide)

/-- C9: the renderer's filter tests truthiness, not presence — a record
with a zero coordinate is excluded from the filtered list (and hence from
markers, centre averaging, lines and legend, all of which are built from
it), while the extractor's own check only drops `None` coordinates, so
extraction can emit a record (zero latitude from the search result) that
the renderer silently discards. -/
theorem c9_truthiness_vs_presence :
    (∀ (places : List Place) (p : Place), p ∈ places →
        (p.latitude = some 0 ∨ p.longitude = some 0) →
        p ∉ validPlaces places)
    ∧ (∀ (a : Activity) (d : Int) (t : String) (c : PlacesClient)
         (r : SearchResult) (rs : List SearchResult) (loc : ResultLocation)
         (ln : ℚ),
        truthyStr a.location = true →
        c.search_places (queryOf a) = Except.ok (r :: rs) →
        r.location = some loc → loc.lat = some 0 → loc.lng = some ln →
        r.place_id = none →
        ∃ p, extract_place_info a d t (some c) = some p
          ∧ p.latitude = some 0 ∧ p ∉ validPlaces [p])
    ∧ (create_itinerary_map [zeroLatPlace] none 12).markers = []
    ∧ (create_itinerary_map [zeroLatPlace] none 12).legend = none := by
  refine ⟨?_, ?_, by decide, by decide⟩
  · intro places p _ h
    exact not_mem_validPlaces_of_zero h
  · intro a d t c r rs loc ln hloc hs hrl hla hln hpid
    refine ⟨{ name := some a.name, description := some (a.description.getD "")
              latitude := some 0, longitude := some ln
              photo_url := none, day := some d, time := some t }, ?_, rfl, ?_⟩
    · have htn : truthyStr (none : Option String) = false := rfl
      unfold extract_place_info
      simp [hloc, hs, hrl, hla, hln, hpid, htn]
    · exact not_mem_validPlaces_of_zero (Or.inl rfl)

/-- Witness for C9: the concrete zero-latitude record is in the input but
not in the filtered list. -/
theorem c9_truthiness_witness :
    zeroLatPlace ∈ [zeroLatPlace]
    ∧ zeroLatPlace ∉ validPlaces [zeroLatPlace] := by
  refine ⟨by decide, ?_⟩
  exact c9_truthiness_vs_presence.1 [zeroLatPlace] zeroLatPlace (by decide)
    (Or.inl rfl)

/-- C5: for every non-empty filtered place sequence, the legend has exactly
one entry per distinct day value present — deduplicated, in ascending
order — each labelled `"Day {day}"` and coloured by the palette colour at
index `(day - 1) mod 7`; for the day sequence `[1, 1, 2, 1]` the legend has
exactly 2 entries. -/
theorem c5_legend_distinct_days (places : List Place)
    (center : Option (ℚ × ℚ)) (zoom : Int) (h : validPlaces places ≠ []) :
    (create_itinerary_map places center zoom).legend
        = some (create_legend_html (validPlaces places))
    ∧ create_legend_html (validPlaces places)
        = (legendDays (validPlaces places)).map
            (fun d => { color := dayColor d, label := s!"Day {d}" })
    ∧ (legendDays (validPlaces places)).Sorted (· ≤ ·)
    ∧ (legendDays (validPlaces places)).Nodup
    ∧ (∀ d, d ∈ legendDays (validPlaces places)
          ↔ d ∈ (validPlaces places).map dayOf)
    ∧ (∀ d : Int, dayColor d = day_colors.getD ((d - 1).emod 7).toNat "")
    ∧ (create_legend_html (validPlaces ex1121)).length = 2 := by
  refine ⟨?_, rfl, ?_, ?_, ?_, fun d => rfl, by decide⟩
  · rw [create_itinerary_map_of_valid h]
  · exact List.sorted_insertionSort _ _
  · exact (List.perm_insertionSort (fun a b : Int => a ≤ b) _).nodup_iff.mpr
      (List.nodup_dedup _)
  · intro d
    rw [legendDays, List.mem_insertionSort, List.mem_dedup]

/-- Witness for C5 at the `[1, 1, 2, 1]` example. -/
theorem c5_legend_witness :
    validPlaces ex1121 ≠ []
    ∧ (create_itinerary_map ex1121 none 12).legend
        = some (create_legend_html (validPlaces ex1121)) := by
  refine ⟨by decide, ?_⟩
  exact (c5_legend_distinct_days ex1121 none 12 (by decide)).1

/-! Lemmas relating the line-drawing loop to the run partition. -/

lemma dayRuns_cons (d : Int) (c : ℚ × ℚ) (t : List (Int × (ℚ × ℚ))) :
    dayRuns ((d, c) :: t) = mergeHead d [c] (dayRuns t) := by
  rcases h : dayRuns t with _ | ⟨⟨d2, cs⟩, more⟩
  · simp [dayRuns, h, mergeHead]
  · by_cases hd : d = d2 <;> simp [dayRuns, h, mergeHead, hd]

lemma mergeHead_mergeHead (d : Int) (coords : List (ℚ × ℚ)) (cp : ℚ × ℚ)
    (R : List (Int × List (ℚ × ℚ))) :
    mergeHead d coords (mergeHead d [cp] R) = mergeHead d (coords ++ [cp]) R := by
  rcases R with _ | ⟨⟨d2, cs⟩, more⟩
  · simp [mergeHead]
  · by_cases hd : d = d2 <;> simp [mergeHead, hd]

lemma specLines_mergeHead_ne {d dp : Int} (hne : d ≠ dp)
    (coords : List (ℚ × ℚ)) (lc cp : ℚ × ℚ) (hlc : coords.getLast? = some lc)
    (R : List (Int × List (ℚ × ℚ))) :
    specLines none (mergeHead d coords (mergeHead dp [cp] R))
      = mkLine coords d :: specLines none (mergeHead dp [lc, cp] R) := by
  rcases R with _ | ⟨⟨d2, cs⟩, more⟩
  · simp [mergeHead, hne, specLines, hlc]
  · by_cases h2 : dp = d2
    · subst h2
      simp [mergeHead, hne, specLines, hlc, List.getLast?_cons_cons]
    · simp [mergeHead, hne, h2, specLines, hlc]

lemma linesGo_eq_specLines :
    ∀ (ps : List Place) (d : Int) (coords : List (ℚ × ℚ)), coords ≠ [] →
    linesGo ps d coords
      = specLines none (mergeHead d coords (dayRuns (ps.map placeKey))) := by
  intro ps
  induction ps with
  | nil =>
    intro d coords hc
    simp [linesGo, hc, mergeHead, dayRuns, specLines]
  | cons p ps ih =>
    intro d coords hc
    by_cases hd : dayOf p = d
    · rw [linesGo, if_neg (by simp [hd])]
      rw [ih _ _ (by simp)]
      simp only [List.map_cons, placeKey, dayRuns_cons, hd]
      rw [mergeHead_mergeHead]
    · rcases hlc : coords.getLast? with _ | lc
      · exact absurd (List.getLast?_eq_none_iff.mp hlc) hc
      · rw [linesGo, if_pos ⟨hd, hc⟩, hlc]
        simp only [Option.toList_some, List.singleton_append]
        rw [ih _ _ (by simp)]
        simp only [List.map_cons, placeKey, dayRuns_cons]
        exact (specLines_mergeHead_ne (Ne.symm hd) coords lc _ hlc _).symm

lemma polylines_eq_specLines {places : List Place} {center : Option (ℚ × ℚ)}
    {zoom : Int} (h2 : 2 ≤ (validPlaces places).length) :
    (create_itinerary_map places center zoom).polylines
      = specLines none (dayRuns ((validPlaces places).map placeKey)) := by
  have hne : validPlaces places ≠ [] := by
    intro h
    rw [h] at h2
    simp at h2
  rw [create_itinerary_map_of_valid hne]
  have hlen : 1 < ((validPlaces places).map fun p => (latOf p, lngOf p)).length := by
    simp only [List.length_map]
    omega
  simp only [hlen, if_true]
  rcases hv : validPlaces places with _ | ⟨v0, rest⟩
  · exact absurd hv hne
  · rw [firstDay, linesGo, if_neg (by simp)]
    simp only [List.nil_append]
    rw [linesGo_eq_specLines rest (dayOf v0) [(latOf v0, lngOf v0)] (by simp)]
    simp only [List.map_cons, placeKey, dayRuns_cons]

lemma dayRuns_flatMap :
    ∀ l : List (Int × (ℚ × ℚ)),
      (dayRuns l).flatMap (fun r => r.2.map fun c => (r.1, c)) = l := by
  intro l
  induction l with
  | nil => rfl
  | cons x t ih =>
    obtain ⟨d, c⟩ := x
    rw [dayRuns_cons]
    rcases h : dayRuns t with _ | ⟨⟨d2, cs⟩, more⟩
    · have ht : t = [] := by
        rw [h] at ih
        simpa using ih.symm
      simp [mergeHead, ht]
    · rw [h] at ih
      by_cases hd : d = d2
      · subst hd
        simp only [mergeHead, if_true, List.singleton_append]
        simp only [List.flatMap_cons, List.map_cons] at ih ⊢
        simp [← ih]
      · simp only [mergeHead, hd, if_false]
        simp only [List.flatMap_cons, List.map_cons] at ih ⊢
        simp [← ih]

lemma dayRuns_chain :
    ∀ l : List (Int × (ℚ × ℚ)),
      List.Chain' (fun a b => a.1 ≠ b.1) (dayRuns l) := by
  intro l
  induction l with
  | nil => simp [dayRuns]
  | cons x t ih =>
    obtain ⟨d, c⟩ := x
    rw [dayRuns_cons]
    rcases h : dayRuns t with _ | ⟨⟨d2, cs⟩, more⟩
    · simp [mergeHead]
    · rw [h] at ih
      by_cases hd : d = d2
      · subst hd
        simp only [mergeHead, if_true, List.singleton_append]
        rw [List.chain'_cons'] at ih ⊢
        exact ⟨fun b hb => ih.1 b hb, ih.2⟩
      · simp only [mergeHead, hd, if_false]
        rw [List.chain'_cons']
        refine ⟨fun b hb => ?_, ih⟩
        simp only [List.head?_cons, Option.mem_def, Option.some.injEq] at hb
        rw [← hb]
        exact hd

lemma dayRuns_runs_ne_nil :
    ∀ (l : List (Int × (ℚ × ℚ))) (r : Int × List (ℚ × ℚ)),
      r ∈ dayRuns l → r.2 ≠ [] := by
  intro l
  induction l with
  | nil =>
    intro r hr
    simp [dayRuns] at hr
  | cons x t ih =>
    obtain ⟨d, c⟩ := x
    intro r hr
    rw [dayRuns_cons] at hr
    rcases h : dayRuns t with _ | ⟨⟨d2, cs⟩, more⟩
    · rw [h] at hr
      simp only [mergeHead, List.mem_singleton] at hr
      subst hr
      simp
    · rw [h] at hr
      by_cases hd : d = d2
      · subst hd
        simp only [mergeHead, if_true, List.mem_cons] at hr
        rcases hr with hr | hr
        · subst hr
          simp
        · exact ih r (h ▸ List.mem_cons_of_mem _ hr)
      · simp only [mergeHead, hd, if_false, List.mem_cons] at hr
        rcases hr with hr | hr | hr
        · subst hr
          simp
        · exact ih r (h ▸ (hr ▸ List.mem_cons_self _ _))
        · exact ih r (h ▸ List.mem_cons_of_mem _ hr)

/-- C3: for every filtered sequence of two or more records, the rendered
polylines are exactly the spec's description: the sequence is partitioned
into maximal runs of consecutive records sharing a day (`dayRuns`: the
flattening of the runs restores the sequence, adjacent runs have distinct
days, no run is empty), one dashed polyline per run coloured by the run's
day, each run after the first seeded with the previous run's last
coordinate (`specLines`); the `[1, 1, 2, 1]` example yields exactly 3
polylines. -/
theorem c3_day_run_polylines (places : List Place) (center : Option (ℚ × ℚ))
    (zoom : Int) (h2 : 2 ≤ (validPlaces places).length) :
    (create_itinerary_map places center zoom).polylines
      = specLines none (dayRuns ((validPlaces places).map placeKey))
    ∧ (∀ l : List (Int × (ℚ × ℚ)),
        (dayRuns l).flatMap (fun r => r.2.map fun c => (r.1, c)) = l)
    ∧ (∀ l : List (Int × (ℚ × ℚ)),
        List.Chain' (fun a b => a.1 ≠ b.1) (dayRuns l))
    ∧ (∀ (l : List (Int × (ℚ × ℚ))) (r : Int × List (ℚ × ℚ)),
        r ∈ dayRuns l → r.2 ≠ [])
    ∧ (create_itinerary_map ex1121 none 12).polylines.length = 3 := by
  exact ⟨polylines_eq_specLines h2, dayRuns_flatMap, dayRuns_chain,
    dayRuns_runs_ne_nil, by decide⟩

/-- Witness for C3 at the `[1, 1, 2, 1]` example. -/
theorem c3_day_run_polylines_witness :
    2 ≤ (validPlaces ex1121).length
    ∧ (create_itinerary_map ex1121 none 12).polylines
        = specLines none (dayRuns ((validPlaces ex1121).map placeKey)) := by
  refine ⟨by decide, ?_⟩
  exact (c3_day_run_polylines ex1121 none 12 (by decide)).1

end MapDisplay
